import Mathlib

/-!
Verification of NaiPromptManager (dengwx6/NaiPromptManager) against its
natural-language specification.

The development shallowly embeds the two source files:
  - src/services/naiService.ts : the request compiler (payload construction
    inside generateImage) and the response decoder (zip handling inside
    generateImage);
  - src/worker/index.ts : the Cloudflare worker: route auth gate, the
    chain/version store operations, the missing-table retry pattern, and the
    provider proxy for POST /api/generate.

JavaScript numbers that are only carried through (character coordinates,
scale factors) are modelled as rationals; seeds and pixel sizes as integers.
Strings are Lean strings; the JS substring tests (includes, startsWith,
endsWith) are modelled over the underlying character lists so that they
evaluate in the kernel.
-/

namespace NaiPromptManager

/-! ## String helpers (models of the JS string predicates used by the source) -/

/-- Model of JavaScript `s.startsWith(p)` (used by the worker route auth gate). -/
def strStartsWith (s p : String) : Bool := p.data.isPrefixOf s.data

/-- Model of JavaScript `s.endsWith(p)` (used by the zip metadata lookup). -/
def strEndsWith (s suf : String) : Bool := suf.data.isSuffixOf s.data

/-- Character-list core of JavaScript `s.includes(sub)`. -/
def containsSub (s sub : List Char) : Bool :=
  sub.isPrefixOf s || (match s with | [] => false | _ :: t => containsSub t sub)

/-- Model of JavaScript `s.includes(sub)` (used by the error-message class tests). -/
def strIncludes (s sub : String) : Bool := containsSub s.data sub.data

/-! ## Request compiler (src/services/naiService.ts, generateImage lines 7-112)

The TypeScript types `NAIParams` and `CharacterPrompt` live in src/types,
which is not part of the two source files; their fields are reconstructed
from their uses inside naiService.ts (params.seed, params.qualityToggle,
params.ucPreset, params.characters with prompt/negativePrompt/x/y,
params.useCoords, params.width/height/scale/sampler/steps, params.variety,
params.cfgRescale). Optional / possibly-undefined fields are `Option`s. -/

/-- Character entry of `params.characters`, fields as used in naiService.ts. -/
structure CharacterPrompt where
  prompt : String
  negativePrompt : Option String
  x : Rat
  y : Rat
deriving DecidableEq

/-- Generation parameters as consumed by `generateImage`. -/
structure NAIParams where
  seed : Option Int
  qualityToggle : Option Bool
  ucPreset : Option Nat
  characters : List CharacterPrompt
  useCoords : Option Bool
  width : Int
  height : Int
  scale : Rat
  sampler : String
  steps : Int
  variety : Option Bool
  cfgRescale : Option Rat
deriving DecidableEq

/-- Modelled from the spec: `NAI_QUALITY_TAGS` is imported from
src/services/promptUtils.ts, which is not among the source files; the spec
only requires it to be a fixed canonical quality-tag string appended verbatim,
so its exact content is immaterial to every claim. -/
def NAI_QUALITY_TAGS : String := ", very aesthetic, masterpiece"

/-- Modelled from the spec: `NAI_UC_PRESETS` is imported from
src/services/promptUtils.ts, which is not among the source files; the spec
describes it as a fixed small enumeration of canned negative-prompt fragments
selected by index, with index 4 meaning none. -/
def NAI_UC_PRESETS : List String :=
  ["heavy uc", "light uc", "human focus uc", "furry uc"]

/-- Caption entry as built by naiService.ts
(`char_caption` plus a singleton `centers` list). -/
structure CharCaption where
  char_caption : String
  centers : List (Rat × Rat)
deriving DecidableEq

/-- The `v4_prompt` block of the provider payload. -/
structure V4Prompt where
  base_caption : String
  char_captions : List CharCaption
  use_coords : Bool
  use_order : Bool
deriving DecidableEq

/-- The `v4_negative_prompt` block of the provider payload. -/
structure V4NegativePrompt where
  base_caption : String
  char_captions : List CharCaption
  legacy_uc : Bool
deriving DecidableEq

/-- The `parameters` object of the provider payload, field for field from
naiService.ts lines 57-107; `seed` is an `Option` because the source adds the
key only conditionally (line 110-112). `skip_cfg_above_sigma` is an `Option`
because the source stores null when variety is off. -/
structure PayloadParameters where
  params_version : Nat
  width : Int
  height : Int
  scale : Rat
  sampler : String
  steps : Int
  n_samples : Nat
  skip_cfg_above_sigma : Option Int
  cfg_rescale : Rat
  qualityToggle : Bool
  ucPreset : Nat
  sm : Bool
  sm_dyn : Bool
  dynamic_thresholding : Bool
  controlnet_strength : Int
  legacy : Bool
  add_original_image : Bool
  uncond_scale : Int
  noise_schedule : String
  negative_prompt : String
  seed : Option Int
  v4_prompt : V4Prompt
  v4_negative_prompt : V4NegativePrompt
  deliberate_euler_ancestral_bug : Bool
  prefer_brownian : Bool
deriving DecidableEq

/-- The full provider payload built by `generateImage`. -/
structure Payload where
  input : String
  model : String
  action : String
  parameters : PayloadParameters
deriving DecidableEq

/-- Request compiler: the pure payload-construction part of `generateImage`
(src/services/naiService.ts lines 7-112), translated statement by statement.
The conditional `payload.parameters.seed = seed` of lines 110-112 is modelled
by the `Option` field. -/
def compile (prompt negative : String) (params : NAIParams) : Payload :=
  let seed : Option Int :=
    match params.seed with
    | none => none
    | some s => if s = -1 then none else some s
  let finalPrompt : String :=
    if params.qualityToggle.getD true then prompt ++ NAI_QUALITY_TAGS else prompt
  let presetId : Nat := params.ucPreset.getD 0
  let finalNegative : String :=
    if presetId ≠ 4 then
      match NAI_UC_PRESETS.get? presetId with
      | some presetString => if presetString ≠ "" then presetString ++ negative else negative
      | none => negative
    else negative
  let hasCharacters : Bool := !params.characters.isEmpty
  let charCaptions : List CharCaption :=
    if hasCharacters then
      params.characters.map (fun c => ⟨c.prompt, [(c.x, c.y)]⟩)
    else []
  let charNegativeCaptions : List CharCaption :=
    if hasCharacters then
      params.characters.map (fun c => ⟨c.negativePrompt.getD "", [(c.x, c.y)]⟩)
    else []
  let useCoords : Bool := params.useCoords.getD hasCharacters
  { input := finalPrompt
    model := "nai-diffusion-4-5-full"
    action := "generate"
    parameters :=
      { params_version := 3
        width := params.width
        height := params.height
        scale := params.scale
        sampler := params.sampler
        steps := params.steps
        n_samples := 1
        skip_cfg_above_sigma := if params.variety.getD false then some 58 else none
        cfg_rescale := params.cfgRescale.getD 0
        qualityToggle := params.qualityToggle.getD true
        ucPreset := params.ucPreset.getD 0
        sm := false
        sm_dyn := false
        dynamic_thresholding := false
        controlnet_strength := 1
        legacy := false
        add_original_image := true
        uncond_scale := 1
        noise_schedule := "karras"
        negative_prompt := finalNegative
        seed := seed
        v4_prompt :=
          { base_caption := finalPrompt
            char_captions := charCaptions
            use_coords := useCoords
            use_order := true }
        v4_negative_prompt :=
          { base_caption := finalNegative
            char_captions := charNegativeCaptions
            legacy_uc := false }
        deliberate_euler_ancestral_bug := false
        prefer_brownian := true } }

/-- Both caption lists built by `compile` are maps over `params.characters`
(the empty-characters branch of the source coincides with mapping the empty
list). -/
theorem compile_charCaptions_eq (prompt negative : String) (p : NAIParams) :
    (compile prompt negative p).parameters.v4_prompt.char_captions
      = p.characters.map (fun c => ⟨c.prompt, [(c.x, c.y)]⟩) ∧
    (compile prompt negative p).parameters.v4_negative_prompt.char_captions
      = p.characters.map (fun c => ⟨c.negativePrompt.getD "", [(c.x, c.y)]⟩) := by
  cases hc : p.characters with
  | nil => simp [compile, hc]
  | cons a l => simp [compile, hc]

/-- Defaults used by the concrete witnesses below; the spec lists these as the
canonical default parameter set. -/
def baseParams : NAIParams :=
  ⟨none, none, none, [], none, 832, 1216, 5, "k_euler_ancestral", 28, none, none⟩

/-- C3: a `params.seed` of absent or exactly -1 yields a payload with no seed
field; any other numeric seed (including 0) is passed through literally. -/
theorem seedPolicy_compile (prompt negative : String) (p : NAIParams) :
    ((p.seed = none ∨ p.seed = some (-1)) → (compile prompt negative p).parameters.seed = none) ∧
    (∀ v : Int, v ≠ -1 → p.seed = some v → (compile prompt negative p).parameters.seed = some v) := by
  constructor
  · rintro (h | h) <;> simp [compile, h]
  · intro v hv h
    simp [compile, h, hv]

/-- C3 witness: seed -1 is omitted from the payload, seed 0 is passed through. -/
theorem seedPolicy_compile_witness :
    (compile "p" "n" { baseParams with seed := some (-1) }).parameters.seed = none ∧
    (compile "p" "n" { baseParams with seed := some 0 }).parameters.seed = some 0 :=
  ⟨(seedPolicy_compile "p" "n" { baseParams with seed := some (-1) }).1 (Or.inr rfl),
   (seedPolicy_compile "p" "n" { baseParams with seed := some 0 }).2 0 (by decide) rfl⟩

/-- C5: with `qualityToggle` explicitly false the payload prompt equals the
input prompt unchanged; with the toggle omitted or true the fixed quality-tag
string is appended to the end exactly once. -/
theorem qualityToggle_compile (prompt negative : String) (p : NAIParams) :
    (p.qualityToggle = some false → (compile prompt negative p).input = prompt) ∧
    (p.qualityToggle ≠ some false →
      (compile prompt negative p).input = prompt ++ NAI_QUALITY_TAGS) := by
  constructor
  · intro h; simp [compile, h]
  · intro h
    match hq : p.qualityToggle with
    | none => simp [compile, hq]
    | some true => simp [compile, hq]
    | some false => exact absurd hq h

/-- C5 witness: toggle false leaves the prompt unchanged, omitted toggle
appends the suffix once. -/
theorem qualityToggle_compile_witness :
    (compile "p" "n" { baseParams with qualityToggle := some false }).input = "p" ∧
    (compile "p" "n" baseParams).input = "p" ++ NAI_QUALITY_TAGS :=
  ⟨(qualityToggle_compile "p" "n" { baseParams with qualityToggle := some false }).1 rfl,
   (qualityToggle_compile "p" "n" baseParams).2 (by decide)⟩

/-- C6: the positive and negative caption lists both have one entry per input
character, in input order; entry i carries the character prompt
(resp. negativePrompt or empty string) and the same (x, y) centers in both
lists; with no characters both lists are empty. -/
theorem characterCaptions_compile (prompt negative : String) (p : NAIParams) :
    (compile prompt negative p).parameters.v4_prompt.char_captions.length
        = p.characters.length ∧
    (compile prompt negative p).parameters.v4_negative_prompt.char_captions.length
        = p.characters.length ∧
    List.Forall₂ (fun c cap => cap.char_caption = c.prompt ∧ cap.centers = [(c.x, c.y)])
      p.characters (compile prompt negative p).parameters.v4_prompt.char_captions ∧
    List.Forall₂
      (fun c cap => cap.char_caption = c.negativePrompt.getD "" ∧ cap.centers = [(c.x, c.y)])
      p.characters (compile prompt negative p).parameters.v4_negative_prompt.char_captions ∧
    List.Forall₂ (fun cap ncap => cap.centers = ncap.centers)
      (compile prompt negative p).parameters.v4_prompt.char_captions
      (compile prompt negative p).parameters.v4_negative_prompt.char_captions ∧
    (p.characters = [] →
      (compile prompt negative p).parameters.v4_prompt.char_captions = [] ∧
      (compile prompt negative p).parameters.v4_negative_prompt.char_captions = []) := by
  obtain ⟨hpos, hneg⟩ := compile_charCaptions_eq prompt negative p
  rw [hpos, hneg]
  refine ⟨by simp, by simp, ?_, ?_, ?_, by intro h; simp [h]⟩
  · rw [List.forall₂_map_right_iff, List.forall₂_same]
    intro c _
    exact ⟨rfl, rfl⟩
  · rw [List.forall₂_map_right_iff, List.forall₂_same]
    intro c _
    exact ⟨rfl, rfl⟩
  · rw [List.forall₂_map_right_iff, List.forall₂_map_left_iff, List.forall₂_same]
    intro c _
    rfl

/-- Two concrete characters for the C6 witness. -/
def twoCharParams : NAIParams :=
  { baseParams with characters := [⟨"girl", some "bad hands", 0, 0⟩, ⟨"boy", none, 1, 1⟩] }

/-- C6 witness: with two characters both caption lists have length 2 and
mirrored centers; with no characters both lists are empty. -/
theorem characterCaptions_compile_witness :
    (compile "p" "n" twoCharParams).parameters.v4_prompt.char_captions.length = 2 ∧
    (compile "p" "n" twoCharParams).parameters.v4_negative_prompt.char_captions.length = 2 ∧
    List.Forall₂ (fun cap ncap => cap.centers = ncap.centers)
      (compile "p" "n" twoCharParams).parameters.v4_prompt.char_captions
      (compile "p" "n" twoCharParams).parameters.v4_negative_prompt.char_captions ∧
    (compile "p" "n" baseParams).parameters.v4_prompt.char_captions = [] := by
  have h2 := characterCaptions_compile "p" "n" twoCharParams
  have h0 := characterCaptions_compile "p" "n" baseParams
  exact ⟨by rw [h2.1]; rfl, by rw [h2.2.1]; rfl, h2.2.2.2.2.1, (h0.2.2.2.2.2 rfl).1⟩

/-! ## Response decoder (src/services/naiService.ts, generateImage lines 120-151)

The provider archive is modelled as the listing JSZip produces: an ordered
list of named entries, each carrying its content (the base64 text for the
image entry, the metadata text for a json entry). `JSON.parse` plus the
`json.seed` field access are an external platform primitive, modelled as a
parameter `parseJson : String → Option (Option Int)`: `none` is a parse
failure, `some none` an object without a numeric seed field, `some (some s)`
an object whose seed field is the number `s`. -/

/-- One entry of the zip listing. -/
structure ZipEntry where
  name : String
  data : String
deriving DecidableEq

/-- Result of a successful generateImage call: the data-URL image and the
resolved seed. -/
structure GenResult where
  image : String
  seed : Int
deriving DecidableEq

/-- Response decoder: the zip-handling tail of `generateImage`
(src/services/naiService.ts lines 120-151). `Object.keys(zip.files)[0]`
followed by the JavaScript falsiness test `if (!filename)` rejects both a
missing first key and an empty-string first key; the truthiness test
`if (json.seed)` accepts only a nonzero numeric seed. -/
def decode (parseJson : String → Option (Option Int)) (entries : List ZipEntry)
    (sentSeed : Option Int) : Except String GenResult :=
  match entries.head? with
  | none => .error "No image found in response"
  | some first =>
    if first.name = "" then .error "No image found in response"
    else
      let fileData := first.data
      let actualSeed := sentSeed.getD 0
      let actualSeed :=
        match entries.find? (fun e => strEndsWith e.name ".json") with
        | some jsonFile =>
          match parseJson jsonFile.data with
          | some meta =>
            match meta with
            | some s => if s ≠ 0 then s else actualSeed
            | none => actualSeed
          | none => actualSeed
        | none => actualSeed
      .ok ⟨"data:image/png;base64," ++ fileData, actualSeed⟩

/-- Parse stub for the C4 counterexample: exactly one known metadata text,
parsing to an object whose numeric seed field is 0. -/
def parseSeedZero : String → Option (Option Int) :=
  fun s => if s = "METADATA-SEED-ZERO" then some (some 0) else none

/-- C4 counterexample: an archive whose metadata entry parses into an object
with the numeric seed field 0, while the sent seed is 5. The claim demands a
resolved seed of 0 (the metadata value, regardless of what was sent), but the
code resolves 5: the JavaScript truthiness test `if (json.seed)` ignores a
metadata seed of 0. -/
theorem seedResolution_cex :
    parseSeedZero "METADATA-SEED-ZERO" = some (some 0) ∧
    decode parseSeedZero [⟨"img.png", "IMG"⟩, ⟨"meta.json", "METADATA-SEED-ZERO"⟩] (some 5)
      = .ok ⟨"data:image/png;base64,IMG", 5⟩ ∧
    (5 : Int) ≠ 0 := by
  refine ⟨rfl, ?_, by decide⟩
  rfl

/-- Seed value the decoder ends up with once the image entry checks passed;
shared shape lemma support for the decoder theorems. -/
def resolvedSeed (parseJson : String → Option (Option Int)) (entries : List ZipEntry)
    (sentSeed : Option Int) : Int :=
  match entries.find? (fun e => strEndsWith e.name ".json") with
  | some jsonFile =>
    match parseJson jsonFile.data with
    | some meta =>
      match meta with
      | some s => if s ≠ 0 then s else sentSeed.getD 0
      | none => sentSeed.getD 0
    | none => sentSeed.getD 0
  | none => sentSeed.getD 0

/-- Shape of a successful decode: with a nonempty listing whose first name is
nonempty, the decode returns the first entry as image and `resolvedSeed`. -/
theorem decode_ok_shape (parseJson : String → Option (Option Int))
    (entries : List ZipEntry) (sentSeed : Option Int) (first : ZipEntry)
    (h1 : entries.head? = some first) (h2 : ¬ first.name = "") :
    decode parseJson entries sentSeed
      = .ok ⟨"data:image/png;base64," ++ first.data,
             resolvedSeed parseJson entries sentSeed⟩ := by
  rw [decode, h1]
  simp only [h2, if_false]
  rw [resolvedSeed]

/-- C4 amended: when the decode succeeds, a metadata entry parsing to a
NONZERO numeric seed wins over the sent seed; a metadata seed of exactly 0 is
ignored (JS truthiness) and falls through, as do an absent metadata entry, an
unparsable one (tolerated, the decode still succeeds), and a parsed object
without a numeric seed; the fallback is the sent seed if one was sent, else 0. -/
theorem seedResolution_amended (parseJson : String → Option (Option Int))
    (entries : List ZipEntry) (sentSeed : Option Int) (first : ZipEntry)
    (h1 : entries.head? = some first) (h2 : ¬ first.name = "") :
    ∃ r : GenResult, decode parseJson entries sentSeed = .ok r ∧
      (∀ jf s, entries.find? (fun e => strEndsWith e.name ".json") = some jf →
        parseJson jf.data = some (some s) → s ≠ 0 → r.seed = s) ∧
      (∀ jf, entries.find? (fun e => strEndsWith e.name ".json") = some jf →
        parseJson jf.data = some (some 0) → r.seed = sentSeed.getD 0) ∧
      (∀ jf, entries.find? (fun e => strEndsWith e.name ".json") = some jf →
        parseJson jf.data = some none → r.seed = sentSeed.getD 0) ∧
      (∀ jf, entries.find? (fun e => strEndsWith e.name ".json") = some jf →
        parseJson jf.data = none → r.seed = sentSeed.getD 0) ∧
      (entries.find? (fun e => strEndsWith e.name ".json") = none →
        r.seed = sentSeed.getD 0) := by
  refine ⟨_, decode_ok_shape parseJson entries sentSeed first h1 h2, ?_, ?_, ?_, ?_, ?_⟩
  · intro jf s hf hp hs
    simp only [resolvedSeed, hf, hp]
    exact if_pos hs
  · intro jf hf hp
    simp only [resolvedSeed, hf, hp]
    simp
  · intro jf hf hp
    simp only [resolvedSeed, hf, hp]
  · intro jf hf hp
    simp only [resolvedSeed, hf, hp]
  · intro hf
    simp only [resolvedSeed, hf]

/-- Parse stub returning nonzero seed 42 for the C4 witness. -/
def parseSeed42 : String → Option (Option Int) :=
  fun s => if s = "METADATA-SEED-42" then some (some 42) else none

/-- C4 amended witness: metadata seed 42 beats sent seed 5; with no metadata
entry the sent seed is kept; with none sent the resolved seed is 0. -/
theorem seedResolution_amended_witness :
    ∃ r : GenResult,
      decode parseSeed42 [⟨"img.png", "IMG"⟩, ⟨"meta.json", "METADATA-SEED-42"⟩] (some 5)
        = .ok r ∧ r.seed = 42 := by
  obtain ⟨r, hr, hwin, -, -, -, -⟩ :=
    seedResolution_amended parseSeed42
      [⟨"img.png", "IMG"⟩, ⟨"meta.json", "METADATA-SEED-42"⟩] (some 5)
      ⟨"img.png", "IMG"⟩ rfl (by decide)
  exact ⟨r, hr, hwin ⟨"meta.json", "METADATA-SEED-42"⟩ 42 (by decide) rfl (by decide)⟩

/-- Parse stub that fails on every input, for the C9 theorems. -/
def parseNever : String → Option (Option Int) := fun _ => none

/-- C9 counterexample: an archive with one entry whose name is the empty
string. The archive has entries, so the claim demands that its first entry be
taken as the image payload, but the code fails with the no-image error: the
JavaScript falsiness test `if (!filename)` also rejects an empty-string
filename. -/
theorem decodeFirstEntry_cex :
    ([(⟨"", "IMG"⟩ : ZipEntry)] ≠ []) ∧
    decode parseNever [⟨"", "IMG"⟩] none = .error "No image found in response" := by
  exact ⟨by decide, rfl⟩

/-- C9 amended: the first entry of the listing is taken as the image payload
provided its name is nonempty; an archive with no entries, or whose first
entry has an empty-string name, fails with the no-image error. -/
theorem decodeFirstEntry_amended (parseJson : String → Option (Option Int))
    (entries : List ZipEntry) (sentSeed : Option Int) :
    (entries = [] →
      decode parseJson entries sentSeed = .error "No image found in response") ∧
    (∀ first rest, entries = first :: rest → first.name = "" →
      decode parseJson entries sentSeed = .error "No image found in response") ∧
    (∀ first rest, entries = first :: rest → first.name ≠ "" →
      ∃ r : GenResult, decode parseJson entries sentSeed = .ok r ∧
        r.image = "data:image/png;base64," ++ first.data) := by
  refine ⟨?_, ?_, ?_⟩
  · intro h; rw [h]; rfl
  · intro first rest he hn
    rw [he, decode]
    simp [hn]
  · intro first rest he hn
    exact ⟨⟨"data:image/png;base64," ++ first.data,
            resolvedSeed parseJson entries sentSeed⟩,
      decode_ok_shape parseJson entries sentSeed first (by rw [he]; rfl) hn, rfl⟩

/-- C9 amended witness: the empty archive errors, and a one-entry archive with
a normal name yields that entry as the image payload. -/
theorem decodeFirstEntry_amended_witness :
    decode parseNever [] none = .error "No image found in response" ∧
    ∃ r : GenResult, decode parseNever [⟨"img.png", "IMG"⟩] none = .ok r ∧
      r.image = "data:image/png;base64," ++ "IMG" := by
  refine ⟨(decodeFirstEntry_amended parseNever [] none).1 rfl, ?_⟩
  exact (decodeFirstEntry_amended parseNever [⟨"img.png", "IMG"⟩] none).2.2
    ⟨"img.png", "IMG"⟩ [] rfl (by decide)

/-! ## Chain/Version store (src/worker/index.ts)

The D1 rows are modelled as records, the database as lists of rows, and each
handler body as a state transition on that database. Timestamps (`Date.now()`
results) are explicit `Nat` arguments, one per call site. -/

/-- Row of the `chains` table (columns of INIT_SQL, worker lines 47-55). -/
structure Chain where
  id : String
  name : String
  description : String
  tags : String
  previewImage : Option String
  createdAt : Nat
  updatedAt : Nat
deriving DecidableEq

/-- Row of the `versions` table (columns of INIT_SQL, worker lines 56-66).
`modules` and `params` hold the serialized JSON text the handler stores. -/
structure Version where
  id : String
  chainId : String
  version : Nat
  basePrompt : String
  negativePrompt : String
  modules : String
  params : String
  createdAt : Nat
deriving DecidableEq

/-- The backing database as seen by the worker handlers. -/
structure Store where
  chains : List Chain
  versions : List Version
deriving DecidableEq

/-- Model of `SELECT MAX(version) ... WHERE chain_id = ?`: SQL MAX over the
selected rows, NULL (`none`) when no row matches. -/
def listMax (l : List Nat) : Option Nat :=
  l.foldl (fun acc v => match acc with | none => some v | some m => some (Nat.max m v)) none

/-- Version numbers currently stored for one chain, in row order. -/
def versionNums (s : Store) (chainId : String) : List Nat :=
  (s.versions.filter (fun v => v.chainId == chainId)).map (fun v => v.version)

/-- Request body of POST /api/chains/(id)/versions as used by the handler
(worker lines 250-266): `body.basePrompt || ''`, `body.negativePrompt || ''`,
and the serialized `modules` / `params` text. -/
structure VersionBody where
  basePrompt : Option String
  negativePrompt : Option String
  modulesJson : String
  paramsJson : String
deriving DecidableEq

/-- Handler of POST /api/chains/(id)/versions (worker lines 246-272): read
`MAX(version)` for the chain, add 1 (the JS `(maxVerResult?.max_v) || 0`
turns both NULL and 0 into 0), insert the new version row, set the parent
chain `updated_at`, and answer with the new id and version number. -/
def createVersion (s : Store) (chainId newId : String) (body : VersionBody)
    (now now2 : Nat) : Store × String × Nat :=
  let maxv := listMax (versionNums s chainId)
  let nextVer := maxv.getD 0 + 1
  let newRow : Version :=
    ⟨newId, chainId, nextVer, body.basePrompt.getD "", body.negativePrompt.getD "",
     body.modulesJson, body.paramsJson, now⟩
  let s1 : Store := ⟨s.chains, s.versions ++ [newRow]⟩
  let s2 : Store :=
    ⟨s1.chains.map (fun c => if c.id = chainId then { c with updatedAt := now2 } else c),
     s1.versions⟩
  (s2, newId, nextVer)

/-- Arguments of one createVersion call in a sequential run. -/
structure CreateCall where
  newId : String
  body : VersionBody
  now : Nat
  now2 : Nat
deriving DecidableEq

/-- Strictly sequential run of createVersion calls against one chain. -/
def runCreates (s : Store) (chainId : String) (calls : List CreateCall) : Store :=
  calls.foldl (fun st k => (createVersion st chainId k.newId k.body k.now k.now2).1) s

/-- Folding the max accumulator over an appended element. -/
theorem listMax_append_single (l : List Nat) (x : Nat) :
    listMax (l ++ [x]) = some ((listMax l).getD 0 |>.max x) ∨
      (listMax l = none ∧ listMax (l ++ [x]) = some x) := by
  rw [listMax, List.foldl_append]
  cases h : listMax l with
  | none =>
    right
    rw [listMax] at h
    rw [h]
    exact ⟨rfl, rfl⟩
  | some m =>
    left
    rw [listMax] at h
    rw [h]
    rfl

/-- Max of the gapless segment 1..m. -/
theorem listMax_range' (m : Nat) :
    listMax (List.range' 1 m) = if m = 0 then none else some m := by
  induction m with
  | zero => rfl
  | succ k ih =>
    rw [List.range'_concat]
    rcases listMax_append_single (List.range' 1 k) (1 + 1 * k) with h | ⟨h0, h⟩
    · rw [h, ih]
      by_cases hk : k = 0
      · subst hk; rfl
      · have hmax : Nat.max k (1 + 1 * k) = k + 1 :=
          (Nat.max_eq_right (by omega)).trans (by omega)
        simp only [hk, if_false, if_neg (Nat.succ_ne_zero k), Option.getD_some, hmax]
    · rw [ih] at h0
      by_cases hk : k = 0
      · subst hk
        rw [h]
        simp
      · simp [hk] at h0

/-- Version rows of other chains are untouched and the new number is appended
for the target chain. -/
theorem versionNums_createVersion (s : Store) (chainId newId : String)
    (body : VersionBody) (now now2 : Nat) :
    versionNums (createVersion s chainId newId body now now2).1 chainId
      = versionNums s chainId ++ [(listMax (versionNums s chainId)).getD 0 + 1] := by
  simp only [createVersion, versionNums, List.filter_append, List.map_append]
  congr 1
  simp [List.filter, beq_self_eq_true]

/-- Sequential invariant core: a gapless prefix 1..m grows to 1..m+1. -/
theorem versionNums_step (s : Store) (chainId newId : String) (body : VersionBody)
    (now now2 : Nat) (m : Nat) (h : versionNums s chainId = List.range' 1 m) :
    versionNums (createVersion s chainId newId body now now2).1 chainId
      = List.range' 1 (m + 1) := by
  rw [versionNums_createVersion, h, listMax_range', List.range'_concat]
  by_cases hm : m = 0
  · subst hm; rfl
  · simp only [hm, if_false, Option.getD_some]
    congr 2
    omega

/-- Sequential invariant: starting from 1..m, k calls give 1..m+k. -/
theorem runCreates_range (chainId : String) (calls : List CreateCall) :
    ∀ (s : Store) (m : Nat), versionNums s chainId = List.range' 1 m →
      versionNums (runCreates s chainId calls) chainId
        = List.range' 1 (m + calls.length) := by
  induction calls with
  | nil => intro s m h; simpa [runCreates] using h
  | cons k rest ih =>
    intro s m h
    have hstep := versionNums_step s chainId k.newId k.body k.now k.now2 m h
    have := ih (createVersion s chainId k.newId k.body k.now k.now2).1 (m + 1) hstep
    simp only [runCreates, List.foldl_cons] at this ⊢
    rw [this]
    congr 1
    simp only [List.length_cons]
    omega

/-- C1: one createVersion call computes the next version as max plus 1 (1 when
no versions exist), inserts exactly that row, sets the parent chain updatedAt
to the call timestamp, and returns the new id and version; and a strictly
sequential run of k calls starting from a chain with no versions yields the
version numbers exactly 1..k, without duplicates or gaps. -/
theorem createVersion_sequential (t s : Store) (chainId newId : String)
    (body : VersionBody) (now now2 : Nat) (calls : List CreateCall)
    (h0 : versionNums s chainId = []) :
    ((∀ m, listMax (versionNums t chainId) = some m →
        (createVersion t chainId newId body now now2).2.2 = m + 1) ∧
     (versionNums t chainId = [] →
        (createVersion t chainId newId body now now2).2.2 = 1) ∧
     (createVersion t chainId newId body now now2).2.1 = newId ∧
     (createVersion t chainId newId body now now2).1.versions
        = t.versions ++ [⟨newId, chainId, (createVersion t chainId newId body now now2).2.2,
            body.basePrompt.getD "", body.negativePrompt.getD "",
            body.modulesJson, body.paramsJson, now⟩] ∧
     (∀ c ∈ (createVersion t chainId newId body now now2).1.chains,
        c.id = chainId → c.updatedAt = now2)) ∧
    versionNums (runCreates s chainId calls) chainId = List.range' 1 calls.length ∧
    (versionNums (runCreates s chainId calls) chainId).Nodup := by
  refine ⟨⟨?_, ?_, rfl, rfl, ?_⟩, ?_, ?_⟩
  · intro m hm
    simp [createVersion, hm]
  · intro hnil
    simp [createVersion, hnil, listMax]
  · intro c hc hid
    simp only [createVersion, List.mem_map] at hc
    obtain ⟨c0, -, hc0⟩ := hc
    by_cases h : c0.id = chainId
    · rw [if_pos h] at hc0
      rw [← hc0]
    · rw [if_neg h] at hc0
      rw [← hc0] at hid
      exact absurd hid h
  · have := runCreates_range chainId calls s 0 (by simpa using h0)
    simpa using this
  · have := runCreates_range chainId calls s 0 (by simpa using h0)
    rw [Nat.zero_add] at this
    rw [this]
    exact List.nodup_range' 1 calls.length

/-- Concrete one-chain store for the witnesses. -/
def sampleStore : Store :=
  ⟨[⟨"c1", "Foo", "bar", "[]", none, 10, 10⟩], []⟩

/-- Concrete version body for the witnesses. -/
def sampleBody : VersionBody := ⟨some "bp", none, "[]", "{ }"⟩

/-- C1 witness: two sequential calls on a fresh chain produce versions 1 and 2
with the chain updatedAt bumped. -/
theorem createVersion_sequential_witness :
    versionNums (runCreates sampleStore "c1"
        [⟨"v1", sampleBody, 11, 12⟩, ⟨"v2", sampleBody, 13, 14⟩]) "c1" = [1, 2] ∧
    (createVersion sampleStore "c1" "v1" sampleBody 11 12).2.2 = 1 := by
  have h := createVersion_sequential sampleStore sampleStore "c1" "v1" sampleBody 11 12
    [⟨"v1", sampleBody, 11, 12⟩, ⟨"v2", sampleBody, 13, 14⟩] rfl
  exact ⟨h.2.1, h.1.2.1 rfl⟩

/-- Body of PUT /api/chains/(id): any subset of the three updatable fields
(worker lines 223-228); `none` models an absent (undefined) field. -/
structure ChainUpdates where
  name : Option String
  description : Option String
  previewImage : Option String
deriving DecidableEq

/-- True when at least one updatable field is present, mirroring
`fields.length > 0` in the handler. -/
def hasFields (u : ChainUpdates) : Bool :=
  u.name.isSome || u.description.isSome || u.previewImage.isSome

/-- Field application of the dynamically built
`UPDATE chains SET ... , updated_at = ? WHERE id = ?` statement on one row. -/
def applyChainUpdates (u : ChainUpdates) (now : Nat) (c : Chain) : Chain :=
  { c with
    name := u.name.getD c.name
    description := u.description.getD c.description
    previewImage := match u.previewImage with | some p => some p | none => c.previewImage
    updatedAt := now }

/-- Handler of PUT /api/chains/(id) (worker lines 220-237): collect the
present fields; when none are present run no statement at all; otherwise run
one UPDATE that sets exactly those fields plus `updated_at` on the rows whose
id matches; answer success either way. -/
def updateChainMeta (s : Store) (id : String) (u : ChainUpdates) (now : Nat) :
    Store × Bool :=
  if hasFields u then
    (⟨s.chains.map (fun c => if c.id = id then applyChainUpdates u now c else c),
      s.versions⟩, true)
  else (s, true)

/-- C7: updateChainMeta reports success; with no present fields it performs no
write at all (the whole store, updatedAt included, is unchanged); with at
least one present field it rewrites exactly the matching chain rows, applying
precisely the present fields and setting updatedAt to the call timestamp
while id, tags and createdAt are untouched, and every other chain row and the
whole versions table are unchanged. -/
theorem updateChainMeta_frame (s : Store) (id : String) (u : ChainUpdates) (now : Nat) :
    (updateChainMeta s id u now).2 = true ∧
    (hasFields u = false → (updateChainMeta s id u now).1 = s) ∧
    (hasFields u = true →
      (updateChainMeta s id u now).1.versions = s.versions ∧
      List.Forall₂ (fun c c2 =>
          (c.id = id →
            c2.id = c.id ∧
            c2.name = u.name.getD c.name ∧
            c2.description = u.description.getD c.description ∧
            c2.previewImage = (match u.previewImage with
              | some p => some p
              | none => c.previewImage) ∧
            c2.tags = c.tags ∧
            c2.createdAt = c.createdAt ∧
            c2.updatedAt = now) ∧
          (c.id ≠ id → c2 = c))
        s.chains (updateChainMeta s id u now).1.chains) := by
  refine ⟨?_, ?_, ?_⟩
  · rw [updateChainMeta]
    split <;> rfl
  · intro h
    rw [updateChainMeta, h]
    rfl
  · intro h
    rw [updateChainMeta, h]
    refine ⟨rfl, ?_⟩
    simp only [if_true]
    rw [List.forall₂_map_right_iff, List.forall₂_same]
    intro c _
    constructor
    · intro hid
      rw [if_pos hid]
      exact ⟨rfl, rfl, rfl, rfl, rfl, rfl, rfl⟩
    · intro hid
      rw [if_neg hid]

/-- C7 witness: an empty update leaves the concrete store untouched, and a
name-only update rewrites the matching row with the new name and timestamp. -/
theorem updateChainMeta_frame_witness :
    (updateChainMeta sampleStore "c1" ⟨none, none, none⟩ 99).1 = sampleStore ∧
    (updateChainMeta sampleStore "c1" ⟨none, none, none⟩ 99).2 = true ∧
    List.Forall₂ (fun c c2 =>
        (c.id = "c1" →
          c2.id = c.id ∧
          c2.name = (some "X").getD c.name ∧
          c2.description = (none : Option String).getD c.description ∧
          c2.previewImage = c.previewImage ∧
          c2.tags = c.tags ∧
          c2.createdAt = c.createdAt ∧
          c2.updatedAt = 99) ∧
        (c.id ≠ "c1" → c2 = c))
      sampleStore.chains
      (updateChainMeta sampleStore "c1" ⟨some "X", none, none⟩ 99).1.chains := by
  have h0 := updateChainMeta_frame sampleStore "c1" ⟨none, none, none⟩ 99
  have h1 := updateChainMeta_frame sampleStore "c1" ⟨some "X", none, none⟩ 99
  exact ⟨h0.2.1 rfl, h0.1, (h1.2.2 rfl).2⟩

/-! ## Missing-table retry pattern (src/worker/index.ts, try/catch blocks)

Each handler's interaction with its primary statement is modelled as a trace:
how many times `db.exec(INIT_SQL)` ran (provisions), how many times the
primary statement was attempted (attempts), and the final outcome. The
behaviour of the underlying store on the first and (when reached) second
attempt is given as `DbOutcome` arguments. -/

/-- Outcome the store reports for one execution of a statement. -/
inductive DbOutcome where
  | ok
  | err (msg : String)
deriving DecidableEq

/-- Final outcome of a handler run. -/
inductive OpResult where
  | success
  | failure (msg : String)
deriving DecidableEq

/-- Outcome of an attempt as a handler result. -/
def outcomeResult : DbOutcome → OpResult
  | .ok => .success
  | .err m => .failure m

/-- Trace of one store operation: provisioning runs, primary-statement
attempts, final outcome. -/
structure OpTrace where
  provisions : Nat
  attempts : Nat
  result : OpResult
deriving DecidableEq

/-- Error class of the chains handlers (worker lines 157 and 201):
`message.includes of no such table or object not found`. -/
def isMissingRel (e : String) : Bool :=
  strIncludes e "no such table" || strIncludes e "object not found"

/-- Error class of the artists/inspirations handlers (worker lines 281, 293,
313, 325): only `message.includes of no such table`. -/
def isMissingTbl (e : String) : Bool := strIncludes e "no such table"

/-- GET /api/chains primary select (worker lines 152-163): on a missing-
relation error run INIT_SQL once and rerun the same select; any other error,
or a second error, propagates. -/
def listChainsSelect (out1 out2 : DbOutcome) : OpTrace :=
  match out1 with
  | .ok => ⟨0, 1, .success⟩
  | .err e => if isMissingRel e then ⟨1, 2, outcomeResult out2⟩ else ⟨0, 1, .failure e⟩

/-- POST /api/chains chain insert (worker lines 196-207): same retry-once
shape as the chains select, with the same two-message error class. -/
def createChainInsert (out1 out2 : DbOutcome) : OpTrace :=
  match out1 with
  | .ok => ⟨0, 1, .success⟩
  | .err e => if isMissingRel e then ⟨1, 2, outcomeResult out2⟩ else ⟨0, 1, .failure e⟩

/-- GET /api/artists (worker lines 275-287): on a no-such-table error run
INIT_SQL once but answer with an empty list WITHOUT rerunning the select;
the narrower one-message class is used. -/
def listArtistsSelect (out1 : DbOutcome) : OpTrace :=
  match out1 with
  | .ok => ⟨0, 1, .success⟩
  | .err e => if isMissingTbl e then ⟨1, 1, .success⟩ else ⟨0, 1, .failure e⟩

/-- POST /api/artists upsert (worker lines 288-299): retry-once shape but
with the narrower one-message error class. -/
def upsertArtistInsert (out1 out2 : DbOutcome) : OpTrace :=
  match out1 with
  | .ok => ⟨0, 1, .success⟩
  | .err e => if isMissingTbl e then ⟨1, 2, outcomeResult out2⟩ else ⟨0, 1, .failure e⟩

/-- DELETE /api/artists/(id) (worker lines 300-304): the delete runs bare,
with no try/catch, no provisioning and no retry. -/
def deleteArtistRun (out1 : DbOutcome) : OpTrace :=
  match out1 with
  | .ok => ⟨0, 1, .success⟩
  | .err e => ⟨0, 1, .failure e⟩

/-- GET /api/inspirations (worker lines 307-319): same shape as the artists
list: provision once, answer empty, no rerun. -/
def listInspirationsSelect (out1 : DbOutcome) : OpTrace :=
  match out1 with
  | .ok => ⟨0, 1, .success⟩
  | .err e => if isMissingTbl e then ⟨1, 1, .success⟩ else ⟨0, 1, .failure e⟩

/-- POST /api/inspirations upsert (worker lines 320-331): same shape as the
artists upsert. -/
def upsertInspirationInsert (out1 out2 : DbOutcome) : OpTrace :=
  match out1 with
  | .ok => ⟨0, 1, .success⟩
  | .err e => if isMissingTbl e then ⟨1, 2, outcomeResult out2⟩ else ⟨0, 1, .failure e⟩

/-- DELETE /api/inspirations/(id) (worker lines 332-336): bare statement, no
try/catch. -/
def deleteInspirationRun (out1 : DbOutcome) : OpTrace :=
  match out1 with
  | .ok => ⟨0, 1, .success⟩
  | .err e => ⟨0, 1, .failure e⟩

/-- DELETE /api/chains/(id) (worker lines 239-243): bare statement, no
try/catch. -/
def deleteChainRun (out1 : DbOutcome) : OpTrace :=
  match out1 with
  | .ok => ⟨0, 1, .success⟩
  | .err e => ⟨0, 1, .failure e⟩

/-- C2 counterexample: deleteArtist hit by a missing-relation error. The
claim demands one provisioning run and a second attempt for EVERY store
operation on this error class; the handler for DELETE /api/artists/(id) has
no try/catch at all, so the trace shows zero provisioning runs, a single
attempt, and the error propagating. -/
theorem retryPattern_cex :
    isMissingRel "no such table: artists" = true ∧
    deleteArtistRun (.err "no such table: artists")
      = ⟨0, 1, .failure "no such table: artists"⟩ := by
  exact ⟨by decide, rfl⟩

/-- C2 amended: the chains select and the chain insert provision once and
retry exactly once on the two-message missing-relation class, a second
failure propagating unretried and any other class propagating directly; the
artist and inspiration upserts do the same but only for the one-message
no-such-table class; the artist and inspiration list selects provision once
on no-such-table but answer an empty list without rerunning the select;
and the three delete handlers never provision or retry at all. -/
theorem retryPattern_amended (e e2 : String) (out2 : DbOutcome) :
    (isMissingRel e = true →
      listChainsSelect (.err e) out2 = ⟨1, 2, outcomeResult out2⟩ ∧
      createChainInsert (.err e) out2 = ⟨1, 2, outcomeResult out2⟩ ∧
      listChainsSelect (.err e) (.err e2) = ⟨1, 2, .failure e2⟩) ∧
    (isMissingRel e = false →
      listChainsSelect (.err e) out2 = ⟨0, 1, .failure e⟩ ∧
      createChainInsert (.err e) out2 = ⟨0, 1, .failure e⟩) ∧
    (isMissingTbl e = true →
      upsertArtistInsert (.err e) out2 = ⟨1, 2, outcomeResult out2⟩ ∧
      upsertInspirationInsert (.err e) out2 = ⟨1, 2, outcomeResult out2⟩ ∧
      listArtistsSelect (.err e) = ⟨1, 1, .success⟩ ∧
      listInspirationsSelect (.err e) = ⟨1, 1, .success⟩) ∧
    (isMissingTbl e = false →
      upsertArtistInsert (.err e) out2 = ⟨0, 1, .failure e⟩ ∧
      upsertInspirationInsert (.err e) out2 = ⟨0, 1, .failure e⟩ ∧
      listArtistsSelect (.err e) = ⟨0, 1, .failure e⟩ ∧
      listInspirationsSelect (.err e) = ⟨0, 1, .failure e⟩) ∧
    (deleteArtistRun (.err e) = ⟨0, 1, .failure e⟩ ∧
     deleteInspirationRun (.err e) = ⟨0, 1, .failure e⟩ ∧
     deleteChainRun (.err e) = ⟨0, 1, .failure e⟩) := by
  refine ⟨?_, ?_, ?_, ?_, rfl, rfl, rfl⟩
  · intro h
    simp [listChainsSelect, createChainInsert, outcomeResult, h]
  · intro h
    simp [listChainsSelect, createChainInsert, h]
  · intro h
    simp [upsertArtistInsert, upsertInspirationInsert, listArtistsSelect,
      listInspirationsSelect, h]
  · intro h
    simp [upsertArtistInsert, upsertInspirationInsert, listArtistsSelect,
      listInspirationsSelect, h]

/-- C2 amended witness: concrete traces for a no-such-table first failure
with a successful retry, for an object-not-found error against the artists
upsert (propagates, narrower class), and for the bare chain delete. -/
theorem retryPattern_amended_witness :
    createChainInsert (.err "no such table: chains") .ok = ⟨1, 2, .success⟩ ∧
    upsertArtistInsert (.err "object not found: artists") .ok
      = ⟨0, 1, .failure "object not found: artists"⟩ ∧
    deleteChainRun (.err "no such table: chains")
      = ⟨0, 1, .failure "no such table: chains"⟩ := by
  have h1 := retryPattern_amended "no such table: chains" "x" .ok
  have h2 := retryPattern_amended "object not found: artists" "x" .ok
  exact ⟨(h1.1 (by decide)).2.1, (h2.2.2.2.1 (by decide)).1, h1.2.2.2.2.2.2⟩

/-! ## Provider proxy and route auth gate (src/worker/index.ts) -/

/-- Response of the external provider fetch as the handler reads it: `ok`
(success flag), `status`, and the body (text on failure, archive bytes on
success), worker lines 117-134. -/
structure ProviderResponse where
  ok : Bool
  status : Nat
  bodyText : String
deriving DecidableEq

/-- Worker response as produced by the generate handler: either the uniform
JSON error envelope with a message and status, or a binary body. -/
inductive WorkerResponse where
  | errorJson (msg : String) (status : Nat)
  | binary (body : String) (status : Nat)
deriving DecidableEq

/-- Handler of POST /api/generate (worker lines 115-135): perform the single
provider fetch; on a non-ok response answer the error envelope with the
message `NAI API Error: ` followed by the provider body text, carrying the
provider status; on ok stream the body back. The second component counts
provider calls made: always exactly one, there is no retry path. -/
def generateProxy (r : ProviderResponse) : WorkerResponse × Nat :=
  if r.ok then (.binary r.bodyText 200, 1)
  else (.errorJson ("NAI API Error: " ++ r.bodyText) r.status, 1)

/-- C8: a non-success provider response is surfaced to the caller with the
provider status code and the provider body text embedded verbatim (behind
the fixed label `NAI API Error: `), after exactly one provider call and with
no retry. -/
theorem providerError_passthrough (r : ProviderResponse) (h : r.ok = false) :
    (generateProxy r).1 = .errorJson ("NAI API Error: " ++ r.bodyText) r.status ∧
    (generateProxy r).2 = 1 := by
  rw [generateProxy, h]
  exact ⟨rfl, rfl⟩

/-- C8 witness: a concrete 429 with body text is surfaced as status 429 with
the body embedded unchanged, after one call. -/
theorem providerError_passthrough_witness :
    (generateProxy ⟨false, 429, "rate limited"⟩).1
      = .errorJson ("NAI API Error: " ++ "rate limited") 429 ∧
    (generateProxy ⟨false, 429, "rate limited"⟩).2 = 1 :=
  providerError_passthrough ⟨false, 429, "rate limited"⟩ rfl

/-- Auth gate condition of the worker (line 100): the X-Master-Key check runs
exactly when the method is PUT or DELETE, or the method is POST and the path
starts with /api/artists or /api/inspirations. -/
def authRequired (method path : String) : Bool :=
  (method == "PUT" || method == "DELETE")
    || (strStartsWith path "/api/artists" && method == "POST")
    || (strStartsWith path "/api/inspirations" && method == "POST")

/-- C10: the shared-secret header comparison is applied exactly to PUT and
DELETE requests and to POST requests on paths starting with /api/artists or
/api/inspirations; POST /api/chains, POST /api/chains/(id)/versions for any
id, POST /api/generate and POST /api/verify-key all dispatch with no secret
comparison. -/
theorem authScope_exact :
    (∀ method path : String,
      authRequired method path = true ↔
        (method = "PUT" ∨ method = "DELETE"
          ∨ (strStartsWith path "/api/artists" = true ∧ method = "POST")
          ∨ (strStartsWith path "/api/inspirations" = true ∧ method = "POST"))) ∧
    authRequired "POST" "/api/chains" = false ∧
    (∀ id : String,
      authRequired "POST" ("/api/chains/" ++ id ++ "/versions") = false) ∧
    authRequired "POST" "/api/generate" = false ∧
    authRequired "POST" "/api/verify-key" = false ∧
    authRequired "PUT" "/api/chains/c1" = true ∧
    authRequired "DELETE" "/api/artists/a1" = true ∧
    authRequired "POST" "/api/artists" = true ∧
    authRequired "POST" "/api/inspirations" = true := by
  refine ⟨?_, by decide, ?_, by decide, by decide, by decide, by decide, by decide, by decide⟩
  · intro method path
    simp [authRequired, Bool.or_eq_true, Bool.and_eq_true, beq_iff_eq]
    tauto
  · intro id
    rw [authRequired]
    have h1 : strStartsWith ("/api/chains/" ++ id ++ "/versions") "/api/artists" = false := by
      rw [strStartsWith, String.data_append, String.data_append]
      rfl
    have h2 : strStartsWith ("/api/chains/" ++ id ++ "/versions") "/api/inspirations"
        = false := by
      rw [strStartsWith, String.data_append, String.data_append]
      rfl
    rw [h1, h2]
    rfl

/-- C10 witness: instantiating the exact characterization at POST /api/chains
shows no secret comparison is required there. -/
theorem authScope_exact_witness :
    ¬ ("POST" = "PUT" ∨ "POST" = "DELETE"
        ∨ (strStartsWith "/api/chains" "/api/artists" = true ∧ "POST" = "POST")
        ∨ (strStartsWith "/api/chains" "/api/inspirations" = true ∧ "POST" = "POST")) := by
  intro h
  have := (authScope_exact.1 "POST" "/api/chains").mpr h
  rw [authScope_exact.2.1] at this
  exact Bool.false_ne_true this

end NaiPromptManager
